import Mathlib

/-!
Verification of the solar position and irradiance calculator
(`Solar_Alt_Az_Simple`): a shallow embedding of its calendar, DST,
solar-geometry and irradiance functions, together with proofs and
refutations of the specified properties.

C `int` arithmetic is embedded as `Int` with truncated division
(`Int.tdiv` / `Int.tmod`, the semantics of C's `/` and `%`); C `float`
arithmetic is embedded as exact real arithmetic over `ℝ`, keeping the
source's literal conversion constants (`DEG_TO_RAD`, `RAD_TO_DEG`).
-/

namespace SolarTracker

/-! ## Calendar and DST (integer) core, embedded from the source -/

/-- The cumulative days-before-month table from `dayOfYear`. -/
def daysBeforeMonth : List Int := [0, 31, 59, 90, 120, 151, 181, 212, 243, 273, 304, 334]

/-- The leap-year test `(y % 4 == 0 && y % 100 != 0) || (y % 400 == 0)`
from `dayOfYear`, with C's truncated `%`. -/
def isLeapC (y : Int) : Bool :=
  (y.tmod 4 == 0 && y.tmod 100 != 0) || y.tmod 400 == 0

/-- `dayOfYear` from the source: table lookup at index `m - 1`, plus the
day, plus one in a leap year after February. -/
def dayOfYear (y m d : Int) : Int :=
  let doy := daysBeforeMonth.getD (m - 1).toNat 0 + d
  if 2 < m && isLeapC y then doy + 1 else doy

/-- The Zeller-congruence weekday computation inlined in `isDST`:
`h = (day + 13 * (m + 1) / 5 + K + K / 4 + J / 4 + 5 * J) % 7` followed by
the shift `(h + 6) % 7` to the 0 = Sunday convention.  Note the source
feeds the *input* day into the congruence. -/
def zellerWeekday (year month day : Int) : Int :=
  let y := if month < 3 then year - 1 else year
  let m := if month < 3 then month + 12 else month
  let K := y.tmod 100
  let J := y.tdiv 100
  let h := (day + (13 * (m + 1)).tdiv 5 + K + K.tdiv 4 + J.tdiv 4 + 5 * J).tmod 7
  (h + 6).tmod 7

/-- `isDST` from the source: months outside March..November are standard
time, April..October are DST, and March/November compare the day against
`14 - weekday` respectively `7 - weekday` where `weekday` is the Zeller
weekday of the input date. -/
def isDST (year month day hour : Int) : Bool :=
  if month < 3 ∨ 11 < month then false
  else if 3 < month ∧ month < 11 then true
  else
    let weekday := zellerWeekday year month day
    if month = 3 then
      decide (14 - weekday < day ∨ (day = 14 - weekday ∧ 2 ≤ hour))
    else if month = 11 then
      decide (day < 7 - weekday ∨ (day = 7 - weekday ∧ hour < 2))
    else false

/-- The UTC-offset selection from `loop()`:
`int tz_offset = isDST(year, month, day, hour) ? -5 : -6;`. -/
def tz_offset (year month day hour : Int) : Int :=
  if isDST year month day hour then -5 else -6

/-- The Gregorian leap-year rule as the specification words it:
divisible by 4 and (not divisible by 100, or divisible by 400). -/
def gregorianLeap (y : Int) : Prop := (4 ∣ y ∧ ¬(100 ∣ y)) ∨ 400 ∣ y

instance (y : Int) : Decidable (gregorianLeap y) := by
  unfold gregorianLeap; infer_instance

/-- Total embedding of `dayOfYear`: the array access `daysBeforeMonth[m-1]`
faults unless `0 ≤ m - 1 < 12`. -/
def dayOfYearChecked (y m d : Int) : Option Int :=
  if 0 ≤ m - 1 ∧ m - 1 < 12 then some (dayOfYear y m d) else none

/-! ## Integer helper lemmas -/

/-- C's truncated remainder by a positive divisor is greater than the
negated divisor (for any sign of the dividend). -/
theorem neg_lt_tmod (a : Int) {b : Int} (hb : 0 < b) : -b < a.tmod b := by
  cases a with
  | ofNat m => exact lt_of_lt_of_le (by omega) (Int.tmod_nonneg b (Int.ofNat_nonneg m))
  | negSucc m =>
    obtain ⟨n, rfl⟩ := Int.eq_ofNat_of_zero_le hb.le
    show -((n : Int)) < -((((m + 1) % n : Nat) : Int))
    have hn : 0 < n := by exact_mod_cast hb
    have : (m + 1) % n < n := Nat.mod_lt _ hn
    omega

/-- The Zeller weekday computed in `isDST` always lies in `[0, 6]`. -/
theorem zellerWeekday_mem (year month day : Int) :
    0 ≤ zellerWeekday year month day ∧ zellerWeekday year month day < 7 := by
  unfold zellerWeekday
  refine ⟨Int.tmod_nonneg 7 ?_, Int.tmod_lt_of_pos _ (by norm_num)⟩
  have := neg_lt_tmod (day + (13 * ((if month < 3 then month + 12 else month) + 1)).tdiv 5 +
      (if month < 3 then year - 1 else year).tmod 100 +
      ((if month < 3 then year - 1 else year).tmod 100).tdiv 4 +
      ((if month < 3 then year - 1 else year).tdiv 100).tdiv 4 +
      5 * (if month < 3 then year - 1 else year).tdiv 100) (b := 7) (by norm_num)
  omega

/-- The source's truncated-remainder leap test agrees with the Gregorian
divisibility rule. -/
theorem isLeapC_iff (y : Int) : isLeapC y = true ↔ gregorianLeap y := by
  have h4 := Int.dvd_iff_tmod_eq_zero (a := 4) (b := y)
  have h100 := Int.dvd_iff_tmod_eq_zero (a := 100) (b := y)
  have h400 := Int.dvd_iff_tmod_eq_zero (a := 400) (b := y)
  simp only [isLeapC, gregorianLeap, Bool.or_eq_true, Bool.and_eq_true, beq_iff_eq,
    bne_iff_ne, ne_eq]
  constructor
  · rintro (⟨ha, hb⟩ | hc)
    · exact Or.inl ⟨h4.mpr ha, fun hd => hb (h100.mp hd)⟩
    · exact Or.inr (h400.mpr hc)
  · rintro (⟨ha, hb⟩ | hc)
    · exact Or.inl ⟨h4.mp ha, fun hd => hb (h100.mpr hd)⟩
    · exact Or.inr (h400.mp hc)

/-! ## Solar geometry and irradiance (float) core, embedded over `ℝ` -/

noncomputable section

open scoped Classical

/-- The source's conversion constant `#define DEG_TO_RAD 0.0174532925`
(a decimal truncation of π/180, kept literally). -/
def DEG_TO_RAD : ℝ := 0.0174532925

/-- The source's conversion constant `#define RAD_TO_DEG 57.2957795131`
(a decimal rounding of 180/π, kept literally; it is slightly *larger*
than 180/π). -/
def RAD_TO_DEG : ℝ := 57.2957795131

/-- The Arduino core's `PI` macro, used by `getGamma`. -/
def PI_ARD : ℝ := 3.1415926535897932384626433832795

/-- `getGamma` from the source: fractional-year angle
`2·PI/365·(doy − 1 + (hour − 12)/24)`. -/
def getGamma (doy hour : Int) : ℝ :=
  2 * PI_ARD / 365 * ((doy : ℝ) - 1 + (((hour : ℝ) - 12)) / 24)

/-- `getDeclination` from the source: seven-term Fourier approximation. -/
def getDeclination (gamma : ℝ) : ℝ :=
  0.006918
    - 0.399912 * Real.cos gamma
    + 0.070257 * Real.sin gamma
    - 0.006758 * Real.cos (2 * gamma)
    + 0.000907 * Real.sin (2 * gamma)
    - 0.002697 * Real.cos (3 * gamma)
    + 0.00148 * Real.sin (3 * gamma)

/-- The equation-of-time correction (minutes) computed inside
`getHourAngle`. -/
def eqTime (gamma : ℝ) : ℝ :=
  229.18 * (0.000075
    + 0.001868 * Real.cos gamma
    - 0.032077 * Real.sin gamma
    - 0.014615 * Real.cos (2 * gamma)
    - 0.040849 * Real.sin (2 * gamma))

/-- `getHourAngle` from the source. -/
def getHourAngle (gamma lon : ℝ) (hour minute second tzoff : Int) : ℝ :=
  let time_offset := eqTime gamma + 4 * lon - 60 * (tzoff : ℝ)
  let true_solar_time := (hour : ℝ) * 60 + (minute : ℝ) + (second : ℝ) / 60 + time_offset
  let ha_deg := true_solar_time / 4 - 180
  ha_deg * DEG_TO_RAD

/-- `getIrradiance` from the source: the Haurwitz clear-sky model, zero
at or below the horizon. -/
def getIrradiance (elevation_deg : ℝ) : ℝ :=
  if elevation_deg ≤ 0 then 0
  else
    1098 * Real.cos ((90 - elevation_deg) * DEG_TO_RAD) *
      Real.exp (-0.059 / Real.cos ((90 - elevation_deg) * DEG_TO_RAD))

/-- C's `atan2(y, x)`, embedded as the complex argument of `x + y·i`:
the angle in `(−π, π]` of the point `(x, y)`, and `0` at the origin. -/
def atan2 (y x : ℝ) : ℝ := Complex.arg ⟨x, y⟩

/-- Truncation toward zero, as C float-to-int conversion and `fmod` use. -/
def truncR (x : ℝ) : ℤ := if 0 ≤ x then ⌊x⌋ else ⌈x⌉

/-- C's `fmod(x, y) = x − trunc(x/y)·y` (exact over the reals). -/
def fmodC (x y : ℝ) : ℝ := x - y * (truncR (x / y) : ℝ)

/-- The outputs computed (and printed) by `computeSolar`. -/
structure SolarResult where
  elevation : ℝ
  azimuth : ℝ
  irradiance : ℝ
  tz : Int

/-- `computeSolar` from the source, returning the four printed values. -/
def computeSolar (lat lon : ℝ) (year month day hour minute second tzoff : Int) :
    SolarResult :=
  let doy := dayOfYear year month day
  let gamma := getGamma doy hour
  let decl := getDeclination gamma
  let ha := getHourAngle gamma lon hour minute second tzoff
  let lat_rad := lat * DEG_TO_RAD
  let sin_elev := Real.sin lat_rad * Real.sin decl +
    Real.cos lat_rad * Real.cos decl * Real.cos ha
  let elevation := Real.arcsin sin_elev * RAD_TO_DEG
  let az_rad := atan2 (Real.sin ha)
    (Real.cos ha * Real.sin lat_rad - Real.tan decl * Real.cos lat_rad)
  let azimuth := fmodC (az_rad * RAD_TO_DEG + 180) 360
  ⟨elevation, azimuth, getIrradiance elevation, tzoff⟩

/-- `computeSolar` with the `Serial` output made explicit: the printed
results accumulate in a log (the only observable effect of a call), and
the computed values are returned. -/
def computeSolarLogged (log : List SolarResult) (lat lon : ℝ)
    (year month day hour minute second tzoff : Int) :
    List SolarResult × SolarResult :=
  let r := computeSolar lat lon year month day hour minute second tzoff
  (log ++ [r], r)

/-- Total embedding of `getIrradiance`: on the sun-above-horizon branch
the divisor `cos(zenith)` must be non-zero. -/
def getIrradianceChecked (elevation_deg : ℝ) : Option ℝ :=
  if elevation_deg ≤ 0 then some 0
  else if Real.cos ((90 - elevation_deg) * DEG_TO_RAD) = 0 then none
  else
    some (1098 * Real.cos ((90 - elevation_deg) * DEG_TO_RAD) *
      Real.exp (-0.059 / Real.cos ((90 - elevation_deg) * DEG_TO_RAD)))

/-- Total embedding of `computeSolar`: the array access inside
`dayOfYear`, the domain of `asin`, the implicit division by `cos(decl)`
inside `tan`, and the division by `cos(zenith)` inside `getIrradiance`
each get an error branch. -/
def computeSolarChecked (lat lon : ℝ) (year month day hour minute second tzoff : Int) :
    Option SolarResult :=
  match dayOfYearChecked year month day with
  | none => none
  | some doy =>
    let gamma := getGamma doy hour
    let decl := getDeclination gamma
    let ha := getHourAngle gamma lon hour minute second tzoff
    let lat_rad := lat * DEG_TO_RAD
    let sin_elev := Real.sin lat_rad * Real.sin decl +
      Real.cos lat_rad * Real.cos decl * Real.cos ha
    if sin_elev < -1 ∨ 1 < sin_elev then none
    else if Real.cos decl = 0 then none
    else
      let elevation := Real.arcsin sin_elev * RAD_TO_DEG
      let az_rad := atan2 (Real.sin ha)
        (Real.cos ha * Real.sin lat_rad - Real.tan decl * Real.cos lat_rad)
      let azimuth := fmodC (az_rad * RAD_TO_DEG + 180) 360
      match getIrradianceChecked elevation with
      | none => none
      | some irr => some ⟨elevation, azimuth, irr, tzoff⟩

end

/-! ## Real-analysis helper lemmas -/

/-- The elevation sine `sin(lat)·sin(decl) + cos(lat)·cos(decl)·cos(ha)`
always lies in `[−1, 1]` (Cauchy-Schwarz on the unit circle). -/
theorem sin_mix_mem (a b c : ℝ) :
    -1 ≤ Real.sin a * Real.sin b + Real.cos a * Real.cos b * Real.cos c ∧
      Real.sin a * Real.sin b + Real.cos a * Real.cos b * Real.cos c ≤ 1 := by
  have h1 := Real.sin_sq_add_cos_sq a
  have h2 := Real.sin_sq_add_cos_sq b
  have h3 := Real.neg_one_le_cos c
  have h4 := Real.cos_le_one c
  constructor <;>
    nlinarith [sq_nonneg (Real.sin a * (Real.cos b * Real.cos c) - Real.cos a * Real.sin b),
      mul_nonneg (mul_nonneg (sub_nonneg.2 h4) (by linarith : (0:ℝ) ≤ 1 + Real.cos c))
        (sq_nonneg (Real.cos b)),
      sq_nonneg (Real.sin a * Real.sin b + Real.cos a * Real.cos b * Real.cos c - 1),
      sq_nonneg (Real.sin a * Real.sin b + Real.cos a * Real.cos b * Real.cos c + 1)]

/-- The declination approximation is bounded by the sum of the absolute
values of its Fourier coefficients, `0.488929`. -/
theorem abs_getDeclination_le (gamma : ℝ) : |getDeclination gamma| ≤ 0.488929 := by
  have c1 := Real.neg_one_le_cos gamma
  have c2 := Real.cos_le_one gamma
  have s1 := Real.neg_one_le_sin gamma
  have s2 := Real.sin_le_one gamma
  have c3 := Real.neg_one_le_cos (2 * gamma)
  have c4 := Real.cos_le_one (2 * gamma)
  have s3 := Real.neg_one_le_sin (2 * gamma)
  have s4 := Real.sin_le_one (2 * gamma)
  have c5 := Real.neg_one_le_cos (3 * gamma)
  have c6 := Real.cos_le_one (3 * gamma)
  have s5 := Real.neg_one_le_sin (3 * gamma)
  have s6 := Real.sin_le_one (3 * gamma)
  rw [abs_le]; unfold getDeclination
  constructor <;> nlinarith

/-- The declination stays strictly inside `(−π/2, π/2)`, so `cos(decl)`
(the hidden divisor of `tan(decl)`) is positive. -/
theorem cos_getDeclination_pos (gamma : ℝ) : 0 < Real.cos (getDeclination gamma) := by
  have h := abs_getDeclination_le gamma
  rw [abs_le] at h
  have hpi := Real.pi_gt_three
  apply Real.cos_pos_of_mem_Ioo
  constructor <;> [nlinarith [h.1]; nlinarith [h.2]]

/-- The computed elevation `arcsin(s)·RAD_TO_DEG` is bounded by
`(π/2)·RAD_TO_DEG`, which is just below `90 + 10⁻⁹` degrees (the literal
`RAD_TO_DEG` slightly exceeds `180/π`). -/
theorem abs_elevation_le (s : ℝ) :
    |Real.arcsin s * RAD_TO_DEG| ≤ 90 + 1 / 1000000000 := by
  have h := Real.arcsin_mem_Icc s
  rw [Set.mem_Icc] at h
  have hpi := Real.pi_lt_d20
  rw [abs_le]; unfold RAD_TO_DEG
  constructor <;> nlinarith [h.1, h.2]

/-- On the positive-elevation branch reachable from `computeSolar` the
zenith angle `(90 − e)·DEG_TO_RAD` stays inside `(−π/2, π/2)`, so its
cosine is positive. -/
theorem cos_zenith_pos (e : ℝ) (h0 : 0 < e) (h1 : e ≤ 90 + 1 / 1000000000) :
    0 < Real.cos ((90 - e) * DEG_TO_RAD) := by
  have hgt := Real.pi_gt_d20
  apply Real.cos_pos_of_mem_Ioo
  unfold DEG_TO_RAD
  constructor <;> nlinarith

/-- The checked Haurwitz model never takes its error branch on elevations
that `computeSolar` can produce. -/
theorem getIrradianceChecked_eq (e : ℝ) (h1 : e ≤ 90 + 1 / 1000000000) :
    getIrradianceChecked e = some (getIrradiance e) := by
  unfold getIrradianceChecked getIrradiance
  rcases le_or_lt e 0 with h | h
  · rw [if_pos h, if_pos h]
  · rw [if_neg (not_le.2 h), if_neg (not_le.2 h),
      if_neg (ne_of_gt (cos_zenith_pos e h h1))]

/-- C `fmod` by 360 of a non-negative argument lies in `[0, 360)`. -/
theorem fmodC_nonneg_mem (x : ℝ) (hx : 0 ≤ x) :
    0 ≤ fmodC x 360 ∧ fmodC x 360 < 360 := by
  unfold fmodC truncR
  rw [if_pos (by positivity : (0:ℝ) ≤ x / 360)]
  have hfr1 := Int.fract_nonneg (x / 360)
  have hfr2 := Int.fract_lt_one (x / 360)
  unfold Int.fract at hfr1 hfr2
  constructor <;> nlinarith

/-- C `fmod` by 360 of an argument in `(−1, 0)` returns it unchanged. -/
theorem fmodC_neg_small (x : ℝ) (hx1 : -1 < x) (hx2 : x < 0) :
    fmodC x 360 = x := by
  unfold fmodC truncR
  rw [if_neg (by nlinarith : ¬ (0:ℝ) ≤ x / 360)]
  rw [show ⌈x / 360⌉ = 0 from Int.ceil_eq_zero_iff.2 ⟨by nlinarith, by nlinarith⟩]
  simp

/-! ## Claims about the integer core -/

/-- Claim C1 (code-bug evaluation): the U.S. DST rule places the 2025
transitions at 2025-03-09 02:00 and 2025-11-02 02:00, so `isDST` should
return true at (2025,3,9,2), false at (2025,3,8,2), false at
(2025,11,2,12) and false at (2025,11,3,0).  The code instead feeds the
*input* date (not March 1 / November 1) into Zeller's congruence, so
`secondSunday = 14 - weekday` and `firstSunday = 7 - weekday` vary with
the queried day, and all four boundary evaluations come out wrong. -/
theorem isDST_2025_boundary_eval :
    isDST 2025 3 9 2 = false ∧ isDST 2025 3 8 2 = true ∧
      isDST 2025 11 2 12 = true ∧ isDST 2025 11 3 0 = true := by decide

/-- Claim C2: `dayOfYear` equals the cumulative days-before-month table
entry plus the day, plus one after February in a Gregorian leap year;
with the three concrete values from the specification. -/
theorem dayOfYear_table_leap (y m d : Int) (hm1 : 1 ≤ m) (hm2 : m ≤ 12)
    (hd1 : 1 ≤ d) (hd2 : d ≤ 31) :
    dayOfYear y m d =
      daysBeforeMonth.getD (m - 1).toNat 0 + d +
        (if 2 < m ∧ gregorianLeap y then 1 else 0) ∧
      dayOfYear 2025 1 1 = 1 ∧ dayOfYear 2025 12 31 = 365 ∧
      dayOfYear 2024 12 31 = 366 := by
  refine ⟨?_, by decide, by decide, by decide⟩
  unfold dayOfYear
  simp only [Bool.and_eq_true, decide_eq_true_eq, isLeapC_iff]
  split_ifs <;> omega

/-- Witness for C2 at the concrete input (2024, 3, 5): the hypotheses
hold and the table formula gives 59 + 5 + 1 = 65. -/
theorem dayOfYear_table_leap_witness :
    (1:ℤ) ≤ 3 ∧ (3:ℤ) ≤ 12 ∧ (1:ℤ) ≤ 5 ∧ (5:ℤ) ≤ 31 ∧ dayOfYear 2024 3 5 = 65 :=
  ⟨by decide, by decide, by decide, by decide, by
    have h := (dayOfYear_table_leap 2024 3 5 (by decide) (by decide) (by decide)
      (by decide)).1
    rw [h]; decide⟩

/-- Claim C6: months before March or after November are never DST,
April through October always are, and the selected UTC offset is −6 off
DST and −5 on DST; in particular (2025,1,15,12) is standard time with
offset −6. -/
theorem isDST_far_months_tz (year month day hour : Int) :
    (month < 3 ∨ 11 < month → isDST year month day hour = false) ∧
      (4 ≤ month → month ≤ 10 → isDST year month day hour = true) ∧
      (isDST year month day hour = false → tz_offset year month day hour = -6) ∧
      (isDST year month day hour = true → tz_offset year month day hour = -5) ∧
      isDST 2025 1 15 12 = false ∧ tz_offset 2025 1 15 12 = -6 := by
  refine ⟨?_, ?_, ?_, ?_, by decide, by decide⟩
  · intro h; unfold isDST; rw [if_pos h]
  · intro h1 h2; unfold isDST; rw [if_neg (by omega), if_pos (by omega)]
  · intro h; unfold tz_offset; rw [h]; rfl
  · intro h; unfold tz_offset; rw [h]; rfl

/-- Witness for C6 at the concrete months 1 and 7. -/
theorem isDST_far_months_tz_witness :
    isDST 2025 1 15 12 = false ∧ isDST 2025 7 4 12 = true ∧
      tz_offset 2025 1 15 12 = -6 ∧ tz_offset 2025 7 4 12 = -5 := by
  have h1 := isDST_far_months_tz 2025 1 15 12
  have h7 := isDST_far_months_tz 2025 7 4 12
  have d1 := h1.1 (by omega)
  have d7 := h7.2.1 (by omega) (by omega)
  exact ⟨d1, d7, h1.2.2.1 d1, h7.2.2.2.1 d7⟩

/-- Claim C9: because the Zeller weekday always lies in `[0, 6]`, the
derived `secondSunday = 14 - weekday` is at least 8 and the derived
`firstSunday = 7 - weekday` is at most 7; hence `isDST` is false for
March days up to 7 and for November days above 7, for every year and
hour. -/
theorem isDST_march_november_edges (year day hour : Int) :
    (day ≤ 7 → isDST year 3 day hour = false) ∧
      (7 < day → isDST year 11 day hour = false) := by
  have h3 := zellerWeekday_mem year 3 day
  have h11 := zellerWeekday_mem year 11 day
  constructor <;> intro h <;> unfold isDST
  · rw [if_neg (by omega), if_neg (by omega), if_pos rfl,
      decide_eq_false_iff_not]
    omega
  · rw [if_neg (by omega), if_neg (by omega), if_neg (by omega),
      if_pos rfl, decide_eq_false_iff_not]
    omega

/-- Witness for C9 at March 7 and November 8 of 2025. -/
theorem isDST_march_november_edges_witness :
    isDST 2025 3 7 23 = false ∧ isDST 2025 11 8 0 = false :=
  ⟨(isDST_march_november_edges 2025 7 23).1 (by omega),
    (isDST_march_november_edges 2025 8 0).2 (by omega)⟩

/-- Claim C10: for any year and in-range month and day, `dayOfYear`
returns a value in `[1, 366]`. -/
theorem dayOfYear_range (y m d : Int) (hm1 : 1 ≤ m) (hm2 : m ≤ 12)
    (hd1 : 1 ≤ d) (hd2 : d ≤ 31) :
    1 ≤ dayOfYear y m d ∧ dayOfYear y m d ≤ 366 := by
  have htab : 0 ≤ daysBeforeMonth.getD (m - 1).toNat 0 ∧
      daysBeforeMonth.getD (m - 1).toNat 0 ≤ 334 := by
    interval_cases m <;> exact ⟨by decide, by decide⟩
  simp only [dayOfYear]
  split_ifs <;> omega

/-- Witness for C10 at the concrete input (2024, 12, 31). -/
theorem dayOfYear_range_witness :
    1 ≤ dayOfYear 2024 12 31 ∧ dayOfYear 2024 12 31 ≤ 366 :=
  dayOfYear_range 2024 12 31 (by omega) (by omega) (by omega) (by omega)

/-! ## Claims about the real-valued core -/

/-- Claim C3: `getIrradiance` is exactly 0 at or below the horizon, and
above the horizon it is the Haurwitz formula
`1098·cos(zenith)·exp(−0.059/cos(zenith))` with
`zenith = (90 − elevation)·DEG_TO_RAD`; at elevation 90 the zenith is 0,
so the value is `1098·exp(−0.059)`. -/
theorem getIrradiance_spec :
    (∀ e : ℝ, e ≤ 0 → getIrradiance e = 0) ∧
      (∀ e : ℝ, 0 < e → getIrradiance e =
        1098 * Real.cos ((90 - e) * DEG_TO_RAD) *
          Real.exp (-0.059 / Real.cos ((90 - e) * DEG_TO_RAD))) ∧
      getIrradiance 90 = 1098 * Real.exp (-0.059) := by
  refine ⟨fun e he => ?_, fun e he => ?_, ?_⟩
  · unfold getIrradiance; rw [if_pos he]
  · unfold getIrradiance; rw [if_neg (not_le.2 he)]
  · unfold getIrradiance
    rw [if_neg (by norm_num)]
    norm_num [Real.cos_zero]

/-- Witness for C3 at the concrete elevations −5 (below horizon) and
45 (above horizon). -/
theorem getIrradiance_spec_witness :
    ((-5 : ℝ) ≤ 0 ∧ getIrradiance (-5) = 0) ∧
      ((0 : ℝ) < 45 ∧ getIrradiance 45 =
        1098 * Real.cos ((90 - 45) * DEG_TO_RAD) *
          Real.exp (-0.059 / Real.cos ((90 - 45) * DEG_TO_RAD))) :=
  ⟨⟨by norm_num, getIrradiance_spec.1 (-5) (by norm_num)⟩,
    ⟨by norm_num, getIrradiance_spec.2.1 45 (by norm_num)⟩⟩

/-- Claim C4: `getHourAngle` is the four-term equation-of-time
correction, the time offset `eqTime + 4·longitude − 60·utcOffset`, the
true solar time in minutes, and the conversion
`(trueSolarTime/4 − 180)·DEG_TO_RAD`, composed exactly as specified. -/
theorem getHourAngle_spec (gamma lon : ℝ) (hour minute second tzoff : Int) :
    getHourAngle gamma lon hour minute second tzoff =
      (((hour : ℝ) * 60 + (minute : ℝ) + (second : ℝ) / 60 +
        (229.18 * (0.000075 + 0.001868 * Real.cos gamma
          - 0.032077 * Real.sin gamma - 0.014615 * Real.cos (2 * gamma)
          - 0.040849 * Real.sin (2 * gamma))
          + 4 * lon - 60 * (tzoff : ℝ))) / 4 - 180) * DEG_TO_RAD := by
  unfold getHourAngle eqTime
  ring

/-- Claim C7: the computation is deterministic and stateless.  With the
`Serial` print log made explicit, the returned result does not depend on
the pre-existing log, a repeated call with identical inputs returns the
identical result, and the only state change of a call is appending its
own printed record to the log. -/
theorem computeSolar_pure (log1 log2 : List SolarResult) (lat lon : ℝ)
    (year month day hour minute second tzoff : Int) :
    (computeSolarLogged log1 lat lon year month day hour minute second tzoff).2 =
        (computeSolarLogged log2 lat lon year month day hour minute second tzoff).2 ∧
      (computeSolarLogged
          (computeSolarLogged log1 lat lon year month day hour minute second tzoff).1
          lat lon year month day hour minute second tzoff).2 =
        (computeSolarLogged log1 lat lon year month day hour minute second tzoff).2 ∧
      (computeSolarLogged log1 lat lon year month day hour minute second tzoff).1 =
        log1 ++ [computeSolar lat lon year month day hour minute second tzoff] :=
  ⟨rfl, rfl, rfl⟩

/-- Azimuth bound helper: for an angle in `(−π, π]` (the range of
`atan2`), the value `fmod(angle·RAD_TO_DEG + 180, 360)` lies in
`(−10⁻⁹, 360)`.  Because `RAD_TO_DEG` slightly exceeds `180/π`, the
argument of `fmod` can be slightly negative, and C's `fmod` then returns
a slightly negative value. -/
theorem fmod_az_bounds (az : ℝ) (h1 : -Real.pi < az) (h2 : az ≤ Real.pi) :
    -(1 / 1000000000) < fmodC (az * RAD_TO_DEG + 180) 360 ∧
      fmodC (az * RAD_TO_DEG + 180) 360 < 360 := by
  have hpi := Real.pi_lt_d20
  have hpi2 := Real.pi_gt_three
  rcases le_or_lt 0 (az * RAD_TO_DEG + 180) with hx | hx
  · have h := fmodC_nonneg_mem (az * RAD_TO_DEG + 180) hx
    exact ⟨by nlinarith [h.1], h.2⟩
  · have hlow : -(1 / 1000000000 : ℝ) < az * RAD_TO_DEG + 180 := by
      unfold RAD_TO_DEG; nlinarith
    rw [fmodC_neg_small _ (by nlinarith) hx]
    exact ⟨hlow, by nlinarith⟩

/-- Claim C5, amended: for every input, the azimuth produced by
`computeSolar` lies in `(−10⁻⁹, 360)` and the elevation lies in
`[−(90 + 10⁻⁹), 90 + 10⁻⁹]`.  The literal `RAD_TO_DEG = 57.2957795131`
is slightly larger than `180/π`, so both the azimuth interval `[0, 360)`
and the elevation interval `[−90, 90]` of the original claim can be
overshot by less than `10⁻⁹` (see the counterexample theorem). -/
theorem computeSolar_output_ranges (lat lon : ℝ)
    (year month day hour minute second tzoff : Int)
    (hm1 : 1 ≤ month) (hm2 : month ≤ 12) (hd1 : 1 ≤ day) (hd2 : day ≤ 31) :
    (-(1 / 1000000000) <
        (computeSolar lat lon year month day hour minute second tzoff).azimuth ∧
      (computeSolar lat lon year month day hour minute second tzoff).azimuth < 360) ∧
      (-(90 + 1 / 1000000000) ≤
          (computeSolar lat lon year month day hour minute second tzoff).elevation ∧
        (computeSolar lat lon year month day hour minute second tzoff).elevation ≤
          90 + 1 / 1000000000) := by
  simp only [computeSolar]
  constructor
  · exact fmod_az_bounds _ (Complex.neg_pi_lt_arg _) (Complex.arg_le_pi _)
  · have h := abs_elevation_le (Real.sin (lat * DEG_TO_RAD) *
      Real.sin (getDeclination (getGamma (dayOfYear year month day) hour)) +
      Real.cos (lat * DEG_TO_RAD) *
        Real.cos (getDeclination (getGamma (dayOfYear year month day) hour)) *
        Real.cos (getHourAngle (getGamma (dayOfYear year month day) hour) lon
          hour minute second tzoff))
    rw [abs_le] at h
    exact h

/-- Witness for the amended C5 at the concrete Carbondale input
`2025,6,13,22,14,0` with offset −5. -/
theorem computeSolar_output_ranges_witness :
    (-(1 / 1000000000) <
        (computeSolar 37.7272 (-89.2168) 2025 6 13 22 14 0 (-5)).azimuth ∧
      (computeSolar 37.7272 (-89.2168) 2025 6 13 22 14 0 (-5)).azimuth < 360) ∧
      (-(90 + 1 / 1000000000) ≤
          (computeSolar 37.7272 (-89.2168) 2025 6 13 22 14 0 (-5)).elevation ∧
        (computeSolar 37.7272 (-89.2168) 2025 6 13 22 14 0 (-5)).elevation ≤
          90 + 1 / 1000000000) :=
  computeSolar_output_ranges 37.7272 (-89.2168) 2025 6 13 22 14 0 (-5)
    (by omega) (by omega) (by omega) (by omega)

/-! Concrete degenerate input for the C5 counterexample: at local solar
noon (hour angle 0) with the observer latitude chosen so that
`lat·DEG_TO_RAD` equals the declination, the elevation sine is exactly 1,
and `asin(1)·RAD_TO_DEG = (π/2)·57.2957795131 > 90`. -/

noncomputable section

/-- The fractional-year angle of 2025-06-13 12:00 as `computeSolar`
computes it. -/
def gammaStar : ℝ := getGamma (dayOfYear 2025 6 13) 12

/-- Latitude (degrees) whose radian conversion equals the declination at
`gammaStar`. -/
def latStar : ℝ := getDeclination gammaStar / DEG_TO_RAD

/-- Longitude making the true solar time of 12:00:00 at UTC−5 exactly
720 minutes, i.e. the hour angle exactly 0. -/
def lonStar : ℝ := (-(eqTime gammaStar) - 300) / 4

end

/-- Claim C5, counterexample: at the explicit input
`computeSolar latStar lonStar 2025 6 13 12 0 0 (−5)` (month 6, day 13 in
range) the computed elevation exceeds 90 degrees, refuting
"the elevation lies in [−90, 90]". -/
theorem computeSolar_elevation_exceeds_90 :
    90 < (computeSolar latStar lonStar 2025 6 13 12 0 0 (-5)).elevation := by
  have hha : getHourAngle gammaStar lonStar 12 0 0 (-5) = 0 := by
    unfold getHourAngle lonStar
    push_cast
    ring
  have hlat : latStar * DEG_TO_RAD = getDeclination gammaStar := by
    unfold latStar
    rw [div_mul_cancel₀]
    unfold DEG_TO_RAD; norm_num
  simp only [computeSolar]
  rw [show getGamma (dayOfYear 2025 6 13) 12 = gammaStar from rfl, hha, hlat,
    Real.cos_zero, mul_one]
  rw [show Real.sin (getDeclination gammaStar) * Real.sin (getDeclination gammaStar) +
      Real.cos (getDeclination gammaStar) * Real.cos (getDeclination gammaStar) = 1 by
    nlinarith [Real.sin_sq_add_cos_sq (getDeclination gammaStar)]]
  rw [Real.arcsin_one]
  unfold RAD_TO_DEG
  nlinarith [Real.pi_gt_d20]

/-- Claim C8: with the month in range (so the `daysBeforeMonth` access
is in bounds) and a physically valid latitude, the total embedding of the
pipeline never takes an error branch: the elevation sine stays in the
domain of `asin`, the declination stays strictly inside `(−π/2, π/2)` so
the divisor hidden in `tan(decl)` is non-zero, and on the
positive-elevation branch of `getIrradiance` the divisor `cos(zenith)` is
positive.  Hence the checked pipeline returns exactly `computeSolar`. -/
theorem computeSolarChecked_no_fault (lat lon : ℝ)
    (year month day hour minute second tzoff : Int)
    (hm1 : 1 ≤ month) (hm2 : month ≤ 12) (hlat : |lat| ≤ 90) :
    computeSolarChecked lat lon year month day hour minute second tzoff =
      some (computeSolar lat lon year month day hour minute second tzoff) := by
  have hdoy : dayOfYearChecked year month day = some (dayOfYear year month day) := by
    unfold dayOfYearChecked
    rw [if_pos ⟨by omega, by omega⟩]
  have hmix := sin_mix_mem (lat * DEG_TO_RAD)
    (getDeclination (getGamma (dayOfYear year month day) hour))
    (getHourAngle (getGamma (dayOfYear year month day) hour) lon hour minute second
      tzoff)
  have helev := abs_elevation_le (Real.sin (lat * DEG_TO_RAD) *
    Real.sin (getDeclination (getGamma (dayOfYear year month day) hour)) +
    Real.cos (lat * DEG_TO_RAD) *
      Real.cos (getDeclination (getGamma (dayOfYear year month day) hour)) *
      Real.cos (getHourAngle (getGamma (dayOfYear year month day) hour) lon hour
        minute second tzoff))
  rw [abs_le] at helev
  simp only [computeSolarChecked, hdoy]
  rw [if_neg (by push_neg; exact ⟨by linarith [hmix.1], by linarith [hmix.2]⟩)]
  rw [if_neg (ne_of_gt (cos_getDeclination_pos _))]
  rw [getIrradianceChecked_eq _ helev.2]
  simp only [computeSolar]

/-- Witness for C8 at the concrete Carbondale input
`2025,6,13,22,14,0` with offset −5. -/
theorem computeSolarChecked_no_fault_witness :
    computeSolarChecked 37.7272 (-89.2168) 2025 6 13 22 14 0 (-5) =
      some (computeSolar 37.7272 (-89.2168) 2025 6 13 22 14 0 (-5)) :=
  computeSolarChecked_no_fault 37.7272 (-89.2168) 2025 6 13 22 14 0 (-5)
    (by omega) (by omega) (by rw [abs_le]; norm_num)

end SolarTracker
